import Mathlib

/-!
Verification development for the Seair shipment-tracking system
(`src/backend/notification_service.py` and `src/backend/app.py`).

The notification worker and the validation logic of the API handlers are
shallowly embedded as pure Lean functions.  Database tables become lists of
row structures, SQL timestamps become integers counting minutes, `NOW()` and
`CURRENT_DATE` become explicit parameters, and the SMTP relay becomes an
oracle `SentEmail → Bool` giving the success/failure outcome of each
`send_email` call (the Python function returns `True`/`False` and swallows
the exception).  HTML rendering is modelled down to the data that the
templates interpolate (subjects, recipient lists, counters, table rows);
the surrounding static markup is not modelled.
-/

namespace ShipTrack

/-! ## Python string primitives used by the worker -/

/-- One character of Python `str.title()`: an (ASCII) letter is uppercased
when the previous character was not a letter and lowercased otherwise;
non-letters pass through.  (`prevAlpha` records whether the preceding
character was a letter.) -/
def titleChar (prevAlpha : Bool) (c : Char) : Char :=
  if c.isAlpha then (if prevAlpha then c.toLower else c.toUpper) else c

/-- Character-list worker for `pyTitle`. -/
def titleGo : Bool → List Char → List Char
  | _, [] => []
  | prevAlpha, c :: cs => titleChar prevAlpha c :: titleGo c.isAlpha cs

/-- Python `str.title()` restricted to ASCII alphabetic word characters,
which is the alphabet milestone names use. -/
def pyTitle (s : String) : String :=
  ⟨titleGo false s.data⟩

/-- Embeds Python `name.replace('_', ' ')`: a single-character replace is a
character-wise map. -/
def replaceUnderscores (s : String) : String :=
  ⟨s.data.map (fun c => if c = '_' then ' ' else c)⟩

/-- Character-list worker for `pySplit`: split at every occurrence of the
separator, keeping empty groups. -/
def splitOnChar (c : Char) : List Char → List (List Char)
  | [] => [[]]
  | x :: xs =>
    match splitOnChar c xs with
    | [] => [[]]
    | g :: gs => if x = c then [] :: g :: gs else (x :: g) :: gs

/-- Python `s.split(sep)` for the single-character separators the source
uses; in particular `''.split(',') == ['']`. -/
def pySplit (s : String) (sep : Char) : List String :=
  (splitOnChar sep s.data).map (fun g => ⟨g⟩)

/-- Python `x or default` for an optional string: `None` and `''` both fall
back to the default. -/
def pyOr (v : Option String) (d : String) : String :=
  match v with
  | none => d
  | some s => if s = "" then d else s

/-- Embeds `format_milestone_name` (notification_service.py:402-406):
`None`/empty gives "N/A", otherwise underscores become spaces and the
result is title-cased. -/
def format_milestone_name (name : Option String) : String :=
  match name with
  | none => "N/A"
  | some s => if s = "" then "N/A" else pyTitle (replaceUnderscores s)

/-! ## Configuration and email -/

/-- Environment-derived configuration of `NotificationService.__init__`:
the raw values of the `VHC_EMAILS` and `ESCALATION_EMAILS` variables
(`none` models an unset variable). -/
structure Config where
  vhc_emails : Option String
  escalation_emails : Option String
deriving DecidableEq, Repr

/-- Embeds `os.getenv('VHC_EMAILS', 'vhc-team@example.com').split(',')`
(notification_service.py:35). -/
def Config.vhc_recipients (cfg : Config) : List String :=
  pySplit (cfg.vhc_emails.getD "vhc-team@example.com") ','

/-- Embeds the escalation list of `send_exception_alert`
(notification_service.py:262-263): split `ESCALATION_EMAILS` (default `''`)
on commas and keep the truthy entries. -/
def Config.escalation_recipients (cfg : Config) : List String :=
  (pySplit (cfg.escalation_emails.getD "") ',').filter (fun e => e != "")

/-- An outbound email as far as the claims observe it: recipient list and
subject line. -/
structure SentEmail where
  recipients : List String
  subject : String
deriving DecidableEq, Repr

/-- Embeds `send_email` (notification_service.py:41-61): hands the message
to the SMTP relay and reports the relay's success or failure as a boolean
(the Python code catches every exception and returns `False`). -/
def send_email (smtp : SentEmail → Bool) (recipients : List String) (subject : String) : Bool :=
  smtp { recipients := recipients, subject := subject }

/-! ## Database rows -/

/-- Columns of the `shipments` table read by the worker. -/
structure Shipment where
  shipment_id : Nat
  booking_number : String
  container_number : Option String
  vessel_name : Option String
  current_status : String
  current_milestone : Option String
  updated_at : Int
deriving DecidableEq, Repr

/-- Columns of the `milestones` table read by the worker. -/
structure Milestone where
  milestone_id : Nat
  shipment_id : Nat
  milestone_name : Option String
  milestone_status : String
  actual_date : Int
  location : Option String
  notes : Option String
  notification_sent : Bool
deriving DecidableEq, Repr

/-- Columns of the `exceptions` table read by the worker. -/
structure ExceptionRow where
  exception_id : Nat
  shipment_id : Nat
  exception_type : Option String
  severity : String
  title : String
  description : Option String
  status : String
  created_at : Int
deriving DecidableEq, Repr

/-- Columns of the `documents` table read by the worker. -/
structure DocumentRow where
  document_id : Nat
  shipment_id : Nat
  created_at : Int
deriving DecidableEq, Repr

/-- The relational store as the worker sees it. -/
structure DB where
  shipments : List Shipment
  milestones : List Milestone
  exceptions : List ExceptionRow
  documents : List DocumentRow
deriving DecidableEq, Repr

/-- Timestamps count minutes; `DATE(t)` truncates a timestamp to its
calendar day (floor division by the minutes in a day). -/
def sqlDate (t : Int) : Int :=
  t.fdiv 1440

/-! ## Milestone poll (`check_new_milestones`, notification_service.py:63-102) -/

/-- The inner join `milestones m JOIN shipments s ON m.shipment_id =
s.shipment_id`. -/
def milestoneJoin (db : DB) : List (Milestone × Shipment) :=
  db.milestones.flatMap fun m =>
    (db.shipments.filter (fun s => s.shipment_id == m.shipment_id)).map (fun s => (m, s))

/-- The WHERE clause of the milestone poll: `notification_sent = FALSE AND
milestone_status = 'COMPLETED' AND actual_date > NOW() - INTERVAL '15
minutes'`. -/
def milestoneWhere (now : Int) (r : Milestone × Shipment) : Bool :=
  !r.1.notification_sent && (r.1.milestone_status == "COMPLETED")
    && decide (now - 15 < r.1.actual_date)

/-- Ordering relation of `ORDER BY m.actual_date DESC`: `a` precedes `b`
when `a` is at least as recent. -/
def milestoneNewer (a b : Milestone × Shipment) : Prop :=
  b.1.actual_date ≤ a.1.actual_date

instance : DecidableRel milestoneNewer :=
  fun a b => inferInstanceAs (Decidable (b.1.actual_date ≤ a.1.actual_date))

instance : IsTotal (Milestone × Shipment) milestoneNewer :=
  ⟨fun a b => (le_total a.1.actual_date b.1.actual_date).symm⟩

instance : IsTrans (Milestone × Shipment) milestoneNewer :=
  ⟨fun _ _ _ hab hbc => le_trans hbc hab⟩

/-- The SELECT of `check_new_milestones`
(notification_service.py:70-83). -/
def milestonePoll (db : DB) (now : Int) : List (Milestone × Shipment) :=
  List.insertionSort milestoneNewer ((milestoneJoin db).filter (milestoneWhere now))

/-- Embeds `send_milestone_notification` (notification_service.py:104-160)
down to the data the claims observe: the email goes to the VHC recipients
with subject "Milestone Update: {formatted name} - {booking number}". -/
def send_milestone_notification (cfg : Config) (r : Milestone × Shipment) : SentEmail :=
  { recipients := cfg.vhc_recipients
    subject := "Milestone Update: " ++ format_milestone_name r.1.milestone_name
      ++ " - " ++ r.2.booking_number }

/-- One delivery attempt of the milestone loop: the milestone it was made
for, the email handed to `send_email`, and the relay's outcome. -/
structure Attempt where
  milestone_id : Nat
  email : SentEmail
  delivered : Bool
deriving DecidableEq, Repr

/-- Embeds `check_new_milestones` (notification_service.py:63-102): poll,
then for each selected row attempt delivery and set `notification_sent =
TRUE` for that milestone id; the relay's outcome is recorded but never
consulted. -/
def check_new_milestones (cfg : Config) (smtp : SentEmail → Bool) (now : Int) (db : DB) :
    DB × List Attempt :=
  let selected := milestonePoll db now
  let attempts := selected.map fun r =>
    let e := send_milestone_notification cfg r
    { milestone_id := r.1.milestone_id, email := e
      delivered := send_email smtp e.recipients e.subject : Attempt }
  let milestones := db.milestones.map fun m =>
    if selected.any (fun r => r.1.milestone_id == m.milestone_id) then
      { m with notification_sent := true }
    else m
  ({ db with milestones := milestones }, attempts)

/-- The 5-minute schedule of `run` (notification_service.py:408-426)
restricted to the milestone job: one `check_new_milestones` execution per
listed wall-clock time, threading the store through and concatenating the
delivery attempts. -/
def runMilestoneChecks (cfg : Config) (smtp : SentEmail → Bool) :
    List Int → DB → DB × List Attempt
  | [], db => (db, [])
  | t :: ts, db =>
    let step := check_new_milestones cfg smtp t db
    let rest := runMilestoneChecks cfg smtp ts step.1
    (rest.1, step.2 ++ rest.2)

/-! ## Exception poll (`check_exceptions`, notification_service.py:162-192) -/

/-- The inner join `exceptions e JOIN shipments s ON e.shipment_id =
s.shipment_id`. -/
def exceptionJoin (db : DB) : List (ExceptionRow × Shipment) :=
  db.exceptions.flatMap fun e =>
    (db.shipments.filter (fun s => s.shipment_id == e.shipment_id)).map (fun s => (e, s))

/-- The WHERE clause of the exception poll: `created_at > NOW() - INTERVAL
'15 minutes' AND status = 'OPEN'`. -/
def exceptionWhere (now : Int) (r : ExceptionRow × Shipment) : Bool :=
  decide (now - 15 < r.1.created_at) && (r.1.status == "OPEN")

/-- Embeds `send_exception_alert` (notification_service.py:194-265): the
base recipients, extended by the escalation list exactly when severity is
HIGH or CRITICAL, with the alert subject line. -/
def send_exception_alert (cfg : Config) (r : ExceptionRow × Shipment) : SentEmail :=
  let recipients :=
    if ["HIGH", "CRITICAL"].contains r.1.severity then
      cfg.vhc_recipients ++ cfg.escalation_recipients
    else cfg.vhc_recipients
  { recipients := recipients
    subject := "Exception Alert [" ++ r.1.severity ++ "]: " ++ r.1.title
      ++ " - " ++ r.2.booking_number }

/-- Embeds `check_exceptions` (notification_service.py:162-192): select the
open exceptions of the window, send one alert each, and leave the store
untouched (the function contains no INSERT or UPDATE). -/
def check_exceptions (cfg : Config) (smtp : SentEmail → Bool) (now : Int) (db : DB) :
    DB × List (SentEmail × Bool) :=
  let rows := (exceptionJoin db).filter (exceptionWhere now)
  (db, rows.map fun r =>
    let e := send_exception_alert cfg r
    (e, send_email smtp e.recipients e.subject))

/-! ## Daily summary (`send_daily_summary`, notification_service.py:267-400) -/

/-- The four counters of the daily summary. -/
structure SummaryStats where
  active : Nat
  milestones_today : Nat
  open_exceptions : Nat
  docs_today : Nat
deriving DecidableEq, Repr

/-- Ordering relation of `ORDER BY updated_at DESC` over shipments. -/
def shipmentNewer (a b : Shipment) : Prop :=
  b.updated_at ≤ a.updated_at

instance : DecidableRel shipmentNewer :=
  fun a b => inferInstanceAs (Decidable (b.updated_at ≤ a.updated_at))

instance : IsTotal Shipment shipmentNewer :=
  ⟨fun a b => (le_total a.updated_at b.updated_at).symm⟩

instance : IsTrans Shipment shipmentNewer :=
  ⟨fun _ _ _ hab hbc => le_trans hbc hab⟩

/-- Embeds `send_daily_summary` (notification_service.py:267-314): the four
aggregate queries and the `LIMIT 10` most recently updated non-completed
shipments, with `CURRENT_DATE` passed as `today`. -/
def send_daily_summary (db : DB) (today : Int) : SummaryStats × List Shipment :=
  let stats : SummaryStats :=
    { active := (db.shipments.filter (fun s => s.current_status != "COMPLETED")).length
      milestones_today := (db.milestones.filter (fun m => sqlDate m.actual_date == today)).length
      open_exceptions := (db.exceptions.filter (fun e => e.status != "RESOLVED")).length
      docs_today := (db.documents.filter (fun d => sqlDate d.created_at == today)).length }
  let recent :=
    (List.insertionSort shipmentNewer
      (db.shipments.filter (fun s => s.current_status != "COMPLETED"))).take 10
  (stats, recent)

/-- The daily summary email down to the data interpolated into its
template: the four counters and one table row (booking number, container
number with the "Pending" fallback, formatted current milestone) per
shipment. -/
structure SummaryEmail where
  active : Nat
  milestones_today : Nat
  docs_today : Nat
  open_exceptions : Nat
  rows : List (String × String × String)
deriving DecidableEq, Repr

/-- Embeds `send_daily_summary_email`
(notification_service.py:316-400). -/
def send_daily_summary_email (stats : SummaryStats) (shipments : List Shipment) : SummaryEmail :=
  { active := stats.active
    milestones_today := stats.milestones_today
    docs_today := stats.docs_today
    open_exceptions := stats.open_exceptions
    rows := shipments.map fun s =>
      (s.booking_number, pyOr s.container_number "Pending",
        format_milestone_name s.current_milestone) }

/-! ## API layer validation (`src/backend/app.py`)

Each handler is embedded from the point where the framework has routed the
request and (where the route demands it) the JWT/role check of
`role_required` has passed.  JSON bodies, multipart file maps and form
maps are association lists from field name to scalar value (scalars are
modelled as strings, which is all the validation logic inspects).
Database reads and writes are abstracted as oracle parameters; the
best-effort notification emails of the handlers are elided, as no claim
observes them. -/

/-- A parsed JSON body (or form/file map): field name to scalar value. -/
abbrev Body : Type :=
  List (String × String)

/-- Python `data.get(k)` on a dict: first binding of the key, if any. -/
def Body.get (b : Body) (k : String) : Option String :=
  (List.find? (fun kv => kv.1 == k) b).map (fun kv => kv.2)

/-- Python `k in data`. -/
def Body.hasKey (b : Body) (k : String) : Bool :=
  (Body.get b k).isSome

/-- Python truthiness of `data.get(k)`: absent keys and empty strings are
falsy. -/
def truthy (v : Option String) : Bool :=
  match v with
  | none => false
  | some s => s != ""

/-- An HTTP response: status code and the JSON message/error payload. -/
structure Response where
  status : Nat
  body : String
deriving DecidableEq, Repr

/-- An uncaught Python exception escaping a handler (Flask surfaces it as
an HTTP 500, not as a handler-built response). -/
inductive PyError where
  | keyError : String → PyError
deriving DecidableEq, Repr

/-- Status code of a handler outcome, `none` when the handler raised. -/
def statusOf (r : Except PyError Response) : Option Nat :=
  match r with
  | Except.ok resp => some resp.status
  | Except.error _ => none

/-- A `users` row as `login` reads it (app.py:103-107). -/
structure UserRow where
  user_id : Nat
  email : String
  password_hash : String
  full_name : String
  role : String
  team : Option String
  is_active : Bool
deriving DecidableEq, Repr

/-- Embeds `login` (app.py:92-142).  `findUser` is the SELECT on `users`
by email, `checkPw` is `check_password_hash`. -/
def login (findUser : String → Option UserRow) (checkPw : String → String → Bool)
    (body : Body) : Except PyError Response :=
  let email := Body.get body "email"
  let password := Body.get body "password"
  if !truthy email || !truthy password then
    Except.ok { status := 400, body := "Email and password required" }
  else
    match findUser (email.getD "") with
    | none => Except.ok { status := 401, body := "Invalid credentials" }
    | some u =>
      if !checkPw u.password_hash (password.getD "") then
        Except.ok { status := 401, body := "Invalid credentials" }
      else if !u.is_active then
        Except.ok { status := 403, body := "Account is inactive" }
      else
        Except.ok { status := 200, body := "ok" }

/-- Embeds `register_user` (app.py:145-180), after the ADMIN role check.
`userExists` is the duplicate-email SELECT. -/
def register_user (userExists : String → Bool) (newId : Nat) (body : Body) :
    Except PyError Response :=
  if !(["email", "password", "full_name", "role"].all (fun f => Body.hasKey body f)) then
    Except.ok { status := 400, body := "Missing required fields" }
  else if userExists ((Body.get body "email").getD "") then
    Except.ok { status := 409, body := "User already exists" }
  else
    Except.ok { status := 201, body := "User created successfully " ++ toString newId }

/-- Embeds `create_shipment` (app.py:295-337), after the role check. -/
def create_shipment (newId : Nat) (body : Body) : Except PyError Response :=
  if !(["booking_number"].all (fun f => Body.hasKey body f)) then
    Except.ok { status := 400, body := "Missing required fields" }
  else
    Except.ok { status := 201, body := "Shipment created " ++ toString newId }

/-- Embeds `update_milestone` (app.py:340-387), after the role check;
`booking` is the booking number of the routed shipment. -/
def update_milestone (booking : String) (newId : Nat) (body : Body) :
    Except PyError Response :=
  if !truthy (Body.get body "milestone_name") then
    Except.ok { status := 400, body := "milestone_name required" }
  else
    Except.ok { status := 200, body := "Milestone updated " ++ toString newId }

/-- The extension allowlist of app.py:32. -/
def ALLOWED_EXTENSIONS : List String :=
  ["pdf", "xlsx", "xls", "doc", "docx", "jpg", "jpeg", "png"]

/-- Embeds `allowed_file` (app.py:42-43): the filename contains a dot and
the piece after the last dot, lowercased, is allowlisted. -/
def allowed_file (filename : String) : Bool :=
  filename.data.contains '.'
    && ALLOWED_EXTENSIONS.contains (((splitOnChar '.' filename.data).getLastD []).map Char.toLower
      |> fun l => (⟨l⟩ : String))

/-- Embeds `upload_document` (app.py:422-471): `files` maps multipart
field names to filenames, `form` is the form-data map. -/
def upload_document (files : Body) (form : Body) (newId : Nat) :
    Except PyError Response :=
  if !Body.hasKey files "file" then
    Except.ok { status := 400, body := "No file provided" }
  else
    let filename := (Body.get files "file").getD ""
    if !truthy (Body.get form "document_type") then
      Except.ok { status := 400, body := "document_type required" }
    else if filename == "" then
      Except.ok { status := 400, body := "No file selected" }
    else if allowed_file filename then
      Except.ok { status := 201, body := "Document uploaded successfully " ++ toString newId }
    else
      Except.ok { status := 400, body := "Invalid file type" }

/-- Embeds `create_invoice` (app.py:523-554), after the role check. -/
def create_invoice (newId : Nat) (body : Body) : Except PyError Response :=
  if !(["shipment_id", "invoice_number", "total_amount"].all (fun f => Body.hasKey body f)) then
    Except.ok { status := 400, body := "Missing required fields" }
  else
    Except.ok { status := 201, body := "Invoice created " ++ toString newId }

/-- Embeds `create_exception` (app.py:595-630), after the role check;
`booking` is the booking number of the routed shipment.  The handler runs
no required-field check: every field is read with `data.get(...)` except
`data['title']`, whose evaluation raises `KeyError` when the key is
absent. -/
def create_exception (newId : Nat) (booking : String) (body : Body) :
    Except PyError Response :=
  match Body.get body "title" with
  | none => Except.error (PyError.keyError "title")
  | some _ => Except.ok { status := 201, body := "Exception created " ++ toString newId }

/-! ## Concrete fixtures

Sample configuration and store contents used to instantiate the theorems
below at concrete inputs. -/

/-- A configuration with both recipient lists populated. -/
def vhcCfg : Config :=
  { vhc_emails := some "vhc-team@example.com"
    escalation_emails := some "ops@example.com,mgr@example.com" }

/-- A configuration whose `ESCALATION_EMAILS` variable is set but empty. -/
def emptyEscCfg : Config :=
  { vhc_emails := some "a@example.com,b@example.com", escalation_emails := some "" }

/-- An SMTP relay that fails every delivery. -/
def smtpDown : SentEmail → Bool :=
  fun _ => false

/-- A sample shipment. -/
def sampleShipment : Shipment :=
  { shipment_id := 1, booking_number := "BK1001", container_number := none
    vessel_name := none, current_status := "BOOKING_CREATED"
    current_milestone := some "VESSEL_DEPARTED", updated_at := 100 }

/-- A completed, unnotified milestone dated minute 55. -/
def sampleMilestone : Milestone :=
  { milestone_id := 1, shipment_id := 1, milestone_name := some "VESSEL_DEPARTED"
    milestone_status := "COMPLETED", actual_date := 55, location := none
    notes := none, notification_sent := false }

/-- An older completed, unnotified milestone dated minute 40. -/
def lateMilestone : Milestone :=
  { milestone_id := 2, shipment_id := 1, milestone_name := some "CUSTOMS_RELEASE"
    milestone_status := "COMPLETED", actual_date := 40, location := none
    notes := none, notification_sent := false }

/-- An open CRITICAL exception created at minute 50. -/
def sampleException : ExceptionRow :=
  { exception_id := 1, shipment_id := 1, exception_type := some "DELAY"
    severity := "CRITICAL", title := "Vessel delayed", description := none
    status := "OPEN", created_at := 50 }

/-- An open LOW exception created at minute 50. -/
def lowException : ExceptionRow :=
  { exception_id := 2, shipment_id := 1, exception_type := some "DELAY"
    severity := "LOW", title := "Minor issue", description := none
    status := "OPEN", created_at := 50 }

/-- A sample store holding the fixtures above. -/
def sampleDB : DB :=
  { shipments := [sampleShipment], milestones := [sampleMilestone, lateMilestone]
    exceptions := [sampleException, lowException], documents := [] }

/-! ## Shared lemmas -/

/-- Membership in the milestone poll unfolds to the join and WHERE clause
of the SELECT. -/
theorem mem_milestonePoll {db : DB} {now : Int} {m : Milestone} {s : Shipment} :
    (m, s) ∈ milestonePoll db now ↔
      m ∈ db.milestones ∧ s ∈ db.shipments ∧ s.shipment_id = m.shipment_id ∧
      m.notification_sent = false ∧ m.milestone_status = "COMPLETED" ∧
      now - 15 < m.actual_date := by
  unfold milestonePoll milestoneJoin milestoneWhere
  rw [List.mem_insertionSort, List.mem_filter]
  simp only [List.mem_flatMap, List.mem_map, List.mem_filter, Prod.mk.injEq, beq_iff_eq,
    Bool.and_eq_true, Bool.not_eq_true', decide_eq_true_eq]
  constructor
  · rintro ⟨⟨m1, hm1, s1, ⟨hs1, hsid⟩, heq1, heq2⟩, ⟨hsent, hstatus⟩, hdate⟩
    subst heq1; subst heq2
    exact ⟨hm1, hs1, hsid, hsent, hstatus, hdate⟩
  · rintro ⟨hm, hs, hsid, hsent, hstatus, hdate⟩
    exact ⟨⟨m, hm, s, ⟨hs, hsid⟩, rfl, rfl⟩, ⟨hsent, hstatus⟩, hdate⟩

/-- Membership in the filtered exception rows unfolds to the join and
WHERE clause of the exception SELECT. -/
theorem mem_exceptionRows {db : DB} {now : Int} {e : ExceptionRow} {s : Shipment} :
    (e, s) ∈ (exceptionJoin db).filter (exceptionWhere now) ↔
      e ∈ db.exceptions ∧ s ∈ db.shipments ∧ s.shipment_id = e.shipment_id ∧
      e.status = "OPEN" ∧ now - 15 < e.created_at := by
  unfold exceptionJoin exceptionWhere
  rw [List.mem_filter]
  simp only [List.mem_flatMap, List.mem_map, List.mem_filter, Prod.mk.injEq, beq_iff_eq,
    Bool.and_eq_true, decide_eq_true_eq]
  constructor
  · rintro ⟨⟨e1, he1, s1, ⟨hs1, hsid⟩, heq1, heq2⟩, hdate, hstatus⟩
    subst heq1; subst heq2
    exact ⟨he1, hs1, hsid, hstatus, hdate⟩
  · rintro ⟨he, hs, hsid, hstatus, hdate⟩
    exact ⟨⟨e, he, s, ⟨hs, hsid⟩, rfl, rfl⟩, hdate, hstatus⟩

/-- The store component of `check_new_milestones`, spelt out. -/
theorem check_new_milestones_fst (cfg : Config) (smtp : SentEmail → Bool) (now : Int) (db : DB) :
    (check_new_milestones cfg smtp now db).1 =
      { db with milestones := db.milestones.map fun m =>
          if (milestonePoll db now).any (fun r => r.1.milestone_id == m.milestone_id) then
            { m with notification_sent := true }
          else m } :=
  rfl

/-- The delivery attempts of `check_new_milestones`, spelt out. -/
theorem check_new_milestones_snd (cfg : Config) (smtp : SentEmail → Bool) (now : Int) (db : DB) :
    (check_new_milestones cfg smtp now db).2 =
      (milestonePoll db now).map (fun r =>
        { milestone_id := r.1.milestone_id
          email := send_milestone_notification cfg r
          delivered := send_email smtp (send_milestone_notification cfg r).recipients
            (send_milestone_notification cfg r).subject : Attempt }) :=
  rfl

/-! ## Claim theorems -/

/-- C1: for every milestone returned by the poll query, `check_new_milestones`
attempts email delivery and sets `notification_sent = true` for that
milestone regardless of the outcome `send_email` reports: the resulting
store does not depend on the SMTP oracle at all, each selected row yields
a recorded delivery attempt, and every stored milestone carrying a
selected milestone id ends up flagged. -/
theorem milestone_flag_set_regardless_of_send (cfg : Config) (smtp : SentEmail → Bool)
    (now : Int) (db : DB) :
    (check_new_milestones cfg smtp now db).1 = (check_new_milestones cfg (fun _ => false) now db).1
    ∧ ∀ r ∈ milestonePoll db now,
        ({ milestone_id := r.1.milestone_id
           email := send_milestone_notification cfg r
           delivered := send_email smtp (send_milestone_notification cfg r).recipients
             (send_milestone_notification cfg r).subject : Attempt }
          ∈ (check_new_milestones cfg smtp now db).2)
        ∧ ∀ m ∈ (check_new_milestones cfg smtp now db).1.milestones,
            m.milestone_id = r.1.milestone_id → m.notification_sent = true := by
  refine ⟨rfl, ?_⟩
  intro r hr
  constructor
  · rw [check_new_milestones_snd]
    exact List.mem_map_of_mem _ hr
  · intro m hm hid
    rw [check_new_milestones_fst] at hm
    obtain ⟨m0, hm0, rfl⟩ := List.mem_map.1 hm
    by_cases hc : ((milestonePoll db now).any (fun r' => r'.1.milestone_id == m0.milestone_id)) = true
    · simp [hc]
    · rw [if_neg hc] at hid ⊢
      exact absurd (List.any_eq_true.2 ⟨r, hr, by rw [beq_iff_eq]; exact hid.symm⟩) hc

/-- Witness for C1: on the sample store at minute 60 the selected sample
milestone yields a concrete recorded attempt even though the relay
rejects every message. -/
theorem milestone_flag_set_regardless_of_send_witness :
    ({ milestone_id := 1
       email := { recipients := ["vhc-team@example.com"]
                  subject := "Milestone Update: Vessel Departed - BK1001" }
       delivered := false : Attempt })
      ∈ (check_new_milestones vhcCfg smtpDown 60 sampleDB).2 :=
  ((milestone_flag_set_regardless_of_send vhcCfg smtpDown 60 sampleDB).2
    (sampleMilestone, sampleShipment) (by decide)).1

/-- C2: a second `check_new_milestones` run on the store left by a first
run emits no delivery attempt for any milestone the first run processed:
the first run flagged every such milestone and the poll requires
`notification_sent = false`. -/
theorem second_poll_skips_processed (cfg cfg2 : Config) (smtp smtp2 : SentEmail → Bool)
    (now now2 : Int) (db : DB) :
    ∀ a ∈ (check_new_milestones cfg2 smtp2 now2 (check_new_milestones cfg smtp now db).1).2,
      ∀ p ∈ (check_new_milestones cfg smtp now db).2, a.milestone_id ≠ p.milestone_id := by
  intro a ha p hp heq
  rw [check_new_milestones_snd] at ha hp
  obtain ⟨r2, hr2, rfl⟩ := List.mem_map.1 ha
  obtain ⟨r1, hr1, rfl⟩ := List.mem_map.1 hp
  obtain ⟨m2, s2⟩ := r2
  obtain ⟨m1, s1⟩ := r1
  have h2 := mem_milestonePoll.1 hr2
  rw [check_new_milestones_fst] at h2
  obtain ⟨m0, hm0, hfm0⟩ := List.mem_map.1 h2.1
  by_cases hc : ((milestonePoll db now).any (fun r' => r'.1.milestone_id == m0.milestone_id)) = true
  · have hflag : m2.notification_sent = false := h2.2.2.2.1
    rw [← hfm0, if_pos hc] at hflag
    simp at hflag
  · rw [if_neg hc] at hfm0
    apply hc
    refine List.any_eq_true.2 ⟨(m1, s1), hr1, ?_⟩
    rw [beq_iff_eq, hfm0]
    exact heq.symm

/-- Witness for C2: after the minute-60 run processes milestone 1, the
minute-50 run attempts only milestone 2, and the theorem separates the
two ids. -/
theorem second_poll_skips_processed_witness :
    (({ milestone_id := 2
        email := { recipients := ["vhc-team@example.com"]
                   subject := "Milestone Update: Customs Release - BK1001" }
        delivered := false : Attempt })
      ∈ (check_new_milestones vhcCfg smtpDown 50
          (check_new_milestones vhcCfg smtpDown 60 sampleDB).1).2)
    ∧ (({ milestone_id := 1
          email := { recipients := ["vhc-team@example.com"]
                     subject := "Milestone Update: Vessel Departed - BK1001" }
          delivered := false : Attempt })
        ∈ (check_new_milestones vhcCfg smtpDown 60 sampleDB).2)
    ∧ (2 : Nat) ≠ 1 :=
  ⟨by decide, by decide,
    second_poll_skips_processed vhcCfg vhcCfg smtpDown smtpDown 60 50 sampleDB
      { milestone_id := 2
        email := { recipients := ["vhc-team@example.com"]
                   subject := "Milestone Update: Customs Release - BK1001" }
        delivered := false } (by decide)
      { milestone_id := 1
        email := { recipients := ["vhc-team@example.com"]
                   subject := "Milestone Update: Vessel Departed - BK1001" }
        delivered := false } (by decide)⟩

/-- C3: the milestone poll returns exactly the milestones joined to their
shipment whose `notification_sent` is false, whose status is COMPLETED and
whose `actual_date` is more recent than 15 minutes before now, ordered
newest-first by `actual_date`. -/
theorem milestone_poll_selects_window_newest_first (db : DB) (now : Int) :
    (∀ m : Milestone, ∀ s : Shipment,
      (m, s) ∈ milestonePoll db now ↔
        m ∈ db.milestones ∧ s ∈ db.shipments ∧ s.shipment_id = m.shipment_id ∧
        m.notification_sent = false ∧ m.milestone_status = "COMPLETED" ∧
        now - 15 < m.actual_date)
    ∧ List.Pairwise (fun a b : Milestone × Shipment => b.1.actual_date ≤ a.1.actual_date)
        (milestonePoll db now) :=
  ⟨fun _ _ => mem_milestonePoll, List.sorted_insertionSort milestoneNewer _⟩

/-- Witness for C3: the sample milestone of minute 55 satisfies the WHERE
clause at minute 60 and is selected. -/
theorem milestone_poll_selects_window_newest_first_witness :
    (sampleMilestone, sampleShipment) ∈ milestonePoll sampleDB 60 :=
  ((milestone_poll_selects_window_newest_first sampleDB 60).1 sampleMilestone
    sampleShipment).mpr
    ⟨by decide, by decide, by decide, by decide, by decide, by decide⟩

/-- C4: `check_exceptions` mutates no store state, so a second run over
the state left by a first run at the same instant produces exactly the
same alert list, and every OPEN exception inside the trailing 15-minute
window has its alert in both runs — two consecutive runs send the same
alerts twice. -/
theorem exception_poll_stateless_resends (cfg : Config) (smtp : SentEmail → Bool)
    (now : Int) (db : DB) :
    (check_exceptions cfg smtp now db).1 = db
    ∧ (check_exceptions cfg smtp now (check_exceptions cfg smtp now db).1).2
        = (check_exceptions cfg smtp now db).2
    ∧ ∀ e ∈ db.exceptions, ∀ s ∈ db.shipments,
        s.shipment_id = e.shipment_id → e.status = "OPEN" → now - 15 < e.created_at →
        (send_exception_alert cfg (e, s),
            send_email smtp (send_exception_alert cfg (e, s)).recipients
              (send_exception_alert cfg (e, s)).subject)
          ∈ (check_exceptions cfg smtp now db).2 := by
  refine ⟨rfl, rfl, ?_⟩
  intro e he s hs hsid hstatus hdate
  have hrow : (e, s) ∈ (exceptionJoin db).filter (exceptionWhere now) :=
    mem_exceptionRows.mpr ⟨he, hs, hsid, hstatus, hdate⟩
  exact List.mem_map_of_mem _ hrow

/-- Witness for C4: the CRITICAL sample exception is alerted by the run at
minute 60 over the sample store. -/
theorem exception_poll_stateless_resends_witness :
    (send_exception_alert vhcCfg (sampleException, sampleShipment),
        send_email smtpDown (send_exception_alert vhcCfg (sampleException, sampleShipment)).recipients
          (send_exception_alert vhcCfg (sampleException, sampleShipment)).subject)
      ∈ (check_exceptions vhcCfg smtpDown 60 sampleDB).2 :=
  (exception_poll_stateless_resends vhcCfg smtpDown 60 sampleDB).2.2 sampleException
    (by decide) sampleShipment (by decide) (by decide) (by decide) (by decide)

/-- Helper for C5: a single `check_new_milestones` run at a time more than
15 minutes after a milestone's `actual_date` leaves that milestone row
untouched, preserves the id column, and emits no attempt carrying its
id (milestone ids are assumed unique, as befits a primary key). -/
theorem check_skips_stale_milestone (cfg : Config) (smtp : SentEmail → Bool) (now : Int)
    (db : DB) (m : Milestone) (hm : m ∈ db.milestones)
    (hnodup : (db.milestones.map Milestone.milestone_id).Nodup)
    (hlate : m.actual_date + 15 < now) :
    m ∈ (check_new_milestones cfg smtp now db).1.milestones
    ∧ (check_new_milestones cfg smtp now db).1.milestones.map Milestone.milestone_id
        = db.milestones.map Milestone.milestone_id
    ∧ ∀ a ∈ (check_new_milestones cfg smtp now db).2, a.milestone_id ≠ m.milestone_id := by
  have hnosel : ∀ r ∈ milestonePoll db now, r.1.milestone_id ≠ m.milestone_id := by
    rintro ⟨m1, s1⟩ hr heq
    have h := mem_milestonePoll.1 hr
    have hm1 : m1 = m := List.inj_on_of_nodup_map hnodup h.1 hm heq
    subst hm1
    have hwin : now - 15 < m1.actual_date := h.2.2.2.2.2
    omega
  refine ⟨?_, ?_, ?_⟩
  · rw [check_new_milestones_fst]
    have hfix : (if (milestonePoll db now).any
          (fun r => r.1.milestone_id == m.milestone_id) then
        { m with notification_sent := true } else m) = m := by
      rw [if_neg]
      intro hany
      obtain ⟨r, hr, hbeq⟩ := List.any_eq_true.1 hany
      exact hnosel r hr (beq_iff_eq.1 hbeq)
    have hmem := List.mem_map_of_mem (fun m1 =>
      if (milestonePoll db now).any (fun r => r.1.milestone_id == m1.milestone_id) then
        { m1 with notification_sent := true } else m1) hm
    simpa only [hfix] using hmem
  · rw [check_new_milestones_fst]
    show (db.milestones.map _).map _ = _
    rw [List.map_map]
    refine List.map_congr_left ?_
    intro x _
    by_cases hc : ((milestonePoll db now).any (fun r => r.1.milestone_id == x.milestone_id)) = true
      <;> simp [Function.comp, hc]
  · intro a ha heq
    rw [check_new_milestones_snd] at ha
    obtain ⟨r, hr, rfl⟩ := List.mem_map.1 ha
    exact hnosel r hr heq

/-- C5: a milestone whose `actual_date` lies more than 15 minutes before
every execution time that could observe it is never the subject of a
delivery attempt across the whole run sequence, and its row — including
its `notification_sent` flag — survives unchanged: there is no catch-up
path. -/
theorem stale_milestone_never_notified (cfg : Config) (smtp : SentEmail → Bool)
    (times : List Int) (db : DB) (m : Milestone) (hm : m ∈ db.milestones)
    (hnodup : (db.milestones.map Milestone.milestone_id).Nodup)
    (hlate : ∀ t ∈ times, m.actual_date + 15 < t) :
    m ∈ (runMilestoneChecks cfg smtp times db).1.milestones
    ∧ ∀ a ∈ (runMilestoneChecks cfg smtp times db).2, a.milestone_id ≠ m.milestone_id := by
  induction times generalizing db with
  | nil => exact ⟨hm, by intro a ha; cases ha⟩
  | cons t ts ih =>
    have hstep := check_skips_stale_milestone cfg smtp t db m hm hnodup (hlate t (by simp))
    have hnodup1 : ((check_new_milestones cfg smtp t db).1.milestones.map
        Milestone.milestone_id).Nodup := by
      rw [hstep.2.1]; exact hnodup
    have hrest := ih (check_new_milestones cfg smtp t db).1 hstep.1 hnodup1
      (fun t1 ht1 => hlate t1 (by simp [ht1]))
    refine ⟨?_, ?_⟩
    · show m ∈ (runMilestoneChecks cfg smtp ts (check_new_milestones cfg smtp t db).1).1.milestones
      exact hrest.1
    · intro a ha
      have hsplit : a ∈ (check_new_milestones cfg smtp t db).2
          ∨ a ∈ (runMilestoneChecks cfg smtp ts (check_new_milestones cfg smtp t db).1).2 :=
        List.mem_append.1 ha
      rcases hsplit with h1 | h2
      · exact hstep.2.2 a h1
      · exact hrest.2 a h2

/-- Witness for C5: both sample milestones (minutes 55 and 40) predate the
runs at minutes 100 and 200 by more than the window, so milestone 2 is
still present unflagged after both runs. -/
theorem stale_milestone_never_notified_witness :
    lateMilestone ∈ (runMilestoneChecks vhcCfg smtpDown [100, 200] sampleDB).1.milestones :=
  (stale_milestone_never_notified vhcCfg smtpDown [100, 200] sampleDB lateMilestone
    (by decide) (by decide) (by decide)).1

/-- C6: an exception of severity HIGH or CRITICAL is addressed to the base
recipient list followed by the configured escalation list, and one of
severity LOW or MEDIUM to the base list only. -/
theorem exception_alert_escalation_routing (cfg : Config) (r : ExceptionRow × Shipment) :
    ((r.1.severity = "HIGH" ∨ r.1.severity = "CRITICAL") →
      (send_exception_alert cfg r).recipients
        = cfg.vhc_recipients ++ cfg.escalation_recipients)
    ∧ ((r.1.severity = "LOW" ∨ r.1.severity = "MEDIUM") →
      (send_exception_alert cfg r).recipients = cfg.vhc_recipients) := by
  constructor
  · intro h
    unfold send_exception_alert
    rcases h with h | h <;> rw [h] <;> rfl
  · intro h
    unfold send_exception_alert
    rcases h with h | h <;> rw [h] <;> rfl

/-- Witness for C6: the CRITICAL sample exception reaches base plus
escalation recipients, the LOW one only the base list. -/
theorem exception_alert_escalation_routing_witness :
    (send_exception_alert vhcCfg (sampleException, sampleShipment)).recipients
        = vhcCfg.vhc_recipients ++ vhcCfg.escalation_recipients
    ∧ (send_exception_alert vhcCfg (lowException, sampleShipment)).recipients
        = vhcCfg.vhc_recipients :=
  ⟨(exception_alert_escalation_routing vhcCfg (sampleException, sampleShipment)).1
      (Or.inr (by decide)),
    (exception_alert_escalation_routing vhcCfg (lowException, sampleShipment)).2
      (Or.inl (by decide))⟩

/-- Helper for C7: `titleGo` preserves length. -/
theorem titleGo_length (b : Bool) (l : List Char) : (titleGo b l).length = l.length := by
  induction l generalizing b with
  | nil => rfl
  | cons c cs ih => simp [titleGo, ih]

/-- Helper for C7: a position holding an underscore before the
replace-and-title pass holds a space afterwards (spaces are not
alphabetic, so title casing leaves them alone). -/
theorem titleGo_underscore_map (b : Bool) (l : List Char) (i : Nat)
    (h : l.getD i 'a' = '_') :
    (titleGo b (l.map fun c => if c = '_' then ' ' else c)).getD i 'a' = ' ' := by
  induction l generalizing b i with
  | nil =>
    rw [List.getD_nil] at h
    exact absurd h (by decide)
  | cons c cs ih =>
    cases i with
    | zero =>
      rw [List.getD_cons_zero] at h
      subst h
      rw [List.map_cons, show (if ('_' : Char) = '_' then ' ' else '_') = ' ' from rfl]
      show titleChar b ' ' = ' '
      cases b <;> decide
    | succ i =>
      rw [List.getD_cons_succ] at h
      simp only [List.map_cons, titleGo, List.getD_cons_succ]
      exact ih _ _ h

/-- C7: `format_milestone_name` maps "VESSEL_DEPARTED" to "Vessel
Departed", maps an absent or empty name to "N/A", and on any non-empty
name preserves the length while turning every underscore position into a
space (the title-casing pass touches only letters). -/
theorem format_milestone_name_contract :
    format_milestone_name (some "VESSEL_DEPARTED") = "Vessel Departed"
    ∧ format_milestone_name none = "N/A"
    ∧ format_milestone_name (some "") = "N/A"
    ∧ ∀ s : String, s ≠ "" →
        (format_milestone_name (some s)).length = s.length
        ∧ ∀ i : Nat, s.data.getD i 'a' = '_' →
            (format_milestone_name (some s)).data.getD i 'a' = ' ' := by
  refine ⟨by decide, rfl, by decide, ?_⟩
  intro s hs
  constructor
  · show (if s = "" then "N/A" else pyTitle (replaceUnderscores s)).length = s.length
    rw [if_neg hs]
    show (titleGo false (s.data.map fun c => if c = '_' then ' ' else c)).length = s.data.length
    rw [titleGo_length, List.length_map]
  · intro i h
    show (if s = "" then "N/A" else pyTitle (replaceUnderscores s)).data.getD i 'a' = ' '
    rw [if_neg hs]
    exact titleGo_underscore_map false s.data i h

/-- Witness for C7: "A_B" keeps its length and position 1 becomes a
space. -/
theorem format_milestone_name_contract_witness :
    (format_milestone_name (some "A_B")).length = String.length "A_B"
    ∧ (format_milestone_name (some "A_B")).data.getD 1 'a' = ' ' :=
  ⟨(format_milestone_name_contract.2.2.2 "A_B" (by decide)).1,
    (format_milestone_name_contract.2.2.2 "A_B" (by decide)).2 1 (by decide)⟩

/-- C8: the daily summary email reports the count of non-completed
shipments, the count of milestones dated today, the count of unresolved
exceptions, the count of documents created today, and a table built from
at most 10 non-completed shipments ordered by `updated_at` descending that
omits a non-completed shipment only when ten more recently updated ones
fill the table. -/
theorem daily_summary_aggregates (db : DB) (today : Int) :
    (send_daily_summary_email (send_daily_summary db today).1
        (send_daily_summary db today).2).active
      = db.shipments.countP (fun s => s.current_status != "COMPLETED")
    ∧ (send_daily_summary_email (send_daily_summary db today).1
        (send_daily_summary db today).2).milestones_today
      = db.milestones.countP (fun m => sqlDate m.actual_date == today)
    ∧ (send_daily_summary_email (send_daily_summary db today).1
        (send_daily_summary db today).2).open_exceptions
      = db.exceptions.countP (fun e => e.status != "RESOLVED")
    ∧ (send_daily_summary_email (send_daily_summary db today).1
        (send_daily_summary db today).2).docs_today
      = db.documents.countP (fun d => sqlDate d.created_at == today)
    ∧ (send_daily_summary_email (send_daily_summary db today).1
        (send_daily_summary db today).2).rows
      = (send_daily_summary db today).2.map (fun s =>
          (s.booking_number, pyOr s.container_number "Pending",
            format_milestone_name s.current_milestone))
    ∧ (send_daily_summary db today).2.length ≤ 10
    ∧ (∀ s ∈ (send_daily_summary db today).2,
        s ∈ db.shipments ∧ s.current_status ≠ "COMPLETED")
    ∧ List.Pairwise (fun a b : Shipment => b.updated_at ≤ a.updated_at)
        (send_daily_summary db today).2
    ∧ ∀ s ∈ db.shipments, s.current_status ≠ "COMPLETED" →
        s ∉ (send_daily_summary db today).2 →
        (send_daily_summary db today).2.length = 10
        ∧ ∀ r ∈ (send_daily_summary db today).2, s.updated_at ≤ r.updated_at := by
  refine ⟨(List.countP_eq_length_filter _ _).symm, (List.countP_eq_length_filter _ _).symm,
    (List.countP_eq_length_filter _ _).symm, (List.countP_eq_length_filter _ _).symm,
    rfl, List.length_take_le _ _, ?_, ?_, ?_⟩
  · intro s hs
    have hsL : s ∈ List.insertionSort shipmentNewer
        (db.shipments.filter (fun s1 => s1.current_status != "COMPLETED")) :=
      List.mem_of_mem_take hs
    rw [List.mem_insertionSort] at hsL
    have hsF := List.mem_filter.1 hsL
    exact ⟨hsF.1, bne_iff_ne.1 hsF.2⟩
  · exact List.Pairwise.sublist (List.take_sublist _ _)
      (List.sorted_insertionSort shipmentNewer _)
  · intro s hs hne hnotin
    have hsL : s ∈ List.insertionSort shipmentNewer
        (db.shipments.filter (fun s1 => s1.current_status != "COMPLETED")) :=
      (List.mem_insertionSort _).2 (List.mem_filter.2 ⟨hs, bne_iff_ne.2 hne⟩)
    have hsplit : s ∈ (List.insertionSort shipmentNewer
        (db.shipments.filter (fun s1 => s1.current_status != "COMPLETED"))).take 10
        ∨ s ∈ (List.insertionSort shipmentNewer
            (db.shipments.filter (fun s1 => s1.current_status != "COMPLETED"))).drop 10 := by
      rw [← List.mem_append, List.take_append_drop]
      exact hsL
    have hsdrop := hsplit.resolve_left hnotin
    have hlen : 10 < (List.insertionSort shipmentNewer
        (db.shipments.filter (fun s1 => s1.current_status != "COMPLETED"))).length := by
      by_contra hle
      push_neg at hle
      rw [List.drop_eq_nil_iff.mpr hle] at hsdrop
      exact absurd hsdrop (List.not_mem_nil s)
    have hcross := (List.pairwise_append.1 (by
      rw [List.take_append_drop]
      exact List.sorted_insertionSort shipmentNewer
        (db.shipments.filter (fun s1 => s1.current_status != "COMPLETED")) :
          List.Pairwise shipmentNewer ((List.insertionSort shipmentNewer
            (db.shipments.filter (fun s1 => s1.current_status != "COMPLETED"))).take 10
          ++ (List.insertionSort shipmentNewer
            (db.shipments.filter (fun s1 => s1.current_status != "COMPLETED"))).drop 10))).2.2
    refine ⟨?_, ?_⟩
    · show ((List.insertionSort shipmentNewer
        (db.shipments.filter (fun s1 => s1.current_status != "COMPLETED"))).take 10).length = 10
      rw [List.length_take]
      exact min_eq_left hlen.le
    · intro r hr
      exact hcross r hr s hsdrop

/-- Witness for C8: on the sample store the active-shipments counter is
reported and the single non-completed sample shipment appears in the
table. -/
theorem daily_summary_aggregates_witness :
    (send_daily_summary_email (send_daily_summary sampleDB 0).1
        (send_daily_summary sampleDB 0).2).active
      = sampleDB.shipments.countP (fun s => s.current_status != "COMPLETED")
    ∧ sampleShipment ∈ sampleDB.shipments ∧ sampleShipment.current_status ≠ "COMPLETED" :=
  ⟨(daily_summary_aggregates sampleDB 0).1,
    (daily_summary_aggregates sampleDB 0).2.2.2.2.2.2.1 sampleShipment (by decide)⟩

/-- C9 counterexample: `create_exception` runs no required-field check, so
a request body without `title` makes the handler raise `KeyError` (which
the framework surfaces as a 500) instead of returning a 400 validation
response. -/
theorem create_exception_missing_title_raises :
    create_exception 7 "BK1001" [("description", "Container damaged")]
        = Except.error (PyError.keyError "title")
    ∧ statusOf (create_exception 7 "BK1001" [("description", "Container damaged")])
        ≠ some 400 :=
  ⟨rfl, by decide⟩

/-- C9 amended: the handlers for login, register, create shipment, post
milestone, upload document and create invoice each return HTTP 400 with a
validation error when a required field is missing from the request, while
`create_exception` performs no such validation and raises `KeyError` on a
missing `title`. -/
theorem missing_required_field_handling :
    (∀ (findUser : String → Option UserRow) (checkPw : String → String → Bool) (body : Body),
      (Body.get body "email" = none ∨ Body.get body "password" = none) →
      login findUser checkPw body = Except.ok { status := 400, body := "Email and password required" })
    ∧ (∀ (userExists : String → Bool) (newId : Nat) (body : Body),
        ∀ f ∈ ["email", "password", "full_name", "role"], Body.get body f = none →
        register_user userExists newId body
          = Except.ok { status := 400, body := "Missing required fields" })
    ∧ (∀ (newId : Nat) (body : Body), Body.get body "booking_number" = none →
        create_shipment newId body = Except.ok { status := 400, body := "Missing required fields" })
    ∧ (∀ (booking : String) (newId : Nat) (body : Body), Body.get body "milestone_name" = none →
        update_milestone booking newId body
          = Except.ok { status := 400, body := "milestone_name required" })
    ∧ (∀ (files form : Body) (newId : Nat),
        (Body.get files "file" = none ∨ Body.get form "document_type" = none) →
        statusOf (upload_document files form newId) = some 400)
    ∧ (∀ (newId : Nat) (body : Body),
        ∀ f ∈ ["shipment_id", "invoice_number", "total_amount"], Body.get body f = none →
        create_invoice newId body = Except.ok { status := 400, body := "Missing required fields" })
    ∧ (∀ (newId : Nat) (booking : String) (body : Body), Body.get body "title" = none →
        create_exception newId booking body = Except.error (PyError.keyError "title")) := by
  refine ⟨?_, ?_, ?_, ?_, ?_, ?_, ?_⟩
  · intro findUser checkPw body h
    rcases h with h | h <;> simp [login, truthy, h]
  · intro userExists newId body f hf h
    have hall : (["email", "password", "full_name", "role"].all
        (fun fl => Body.hasKey body fl)) = false := by
      cases hall1 : (["email", "password", "full_name", "role"].all
          (fun fl => Body.hasKey body fl))
      · rfl
      · have := List.all_eq_true.1 hall1 f hf
        simp [Body.hasKey, h] at this
    simp [register_user, hall]
  · intro newId body h
    simp [create_shipment, Body.hasKey, h]
  · intro booking newId body h
    simp [update_milestone, truthy, h]
  · intro files form newId h
    rcases h with h | h
    · simp [upload_document, Body.hasKey, h, statusOf]
    · cases hfile : Body.hasKey files "file"
      · simp [upload_document, hfile, statusOf]
      · simp [upload_document, hfile, truthy, h, statusOf]
  · intro newId body f hf h
    have hall : (["shipment_id", "invoice_number", "total_amount"].all
        (fun fl => Body.hasKey body fl)) = false := by
      cases hall1 : (["shipment_id", "invoice_number", "total_amount"].all
          (fun fl => Body.hasKey body fl))
      · rfl
      · have := List.all_eq_true.1 hall1 f hf
        simp [Body.hasKey, h] at this
    simp [create_invoice, hall]
  · intro newId booking body h
    simp [create_exception, h]

/-- Witness for C9 amended: concrete requests missing one required field
each, yielding the 400 responses, and a concrete `create_exception`
request without `title` raising `KeyError`. -/
theorem missing_required_field_handling_witness :
    login (fun _ => none) (fun _ _ => false) [("password", "pw")]
        = Except.ok { status := 400, body := "Email and password required" }
    ∧ register_user (fun _ => false) 1 [("email", "e@x.com"), ("password", "p"), ("full_name", "N")]
        = Except.ok { status := 400, body := "Missing required fields" }
    ∧ create_shipment 1 [] = Except.ok { status := 400, body := "Missing required fields" }
    ∧ update_milestone "BK1001" 1 []
        = Except.ok { status := 400, body := "milestone_name required" }
    ∧ statusOf (upload_document [] [("document_type", "BOL")] 1) = some 400
    ∧ create_invoice 1 [("shipment_id", "3"), ("total_amount", "100")]
        = Except.ok { status := 400, body := "Missing required fields" }
    ∧ create_exception 9 "BK1001" [("severity", "HIGH")]
        = Except.error (PyError.keyError "title") :=
  ⟨missing_required_field_handling.1 (fun _ => none) (fun _ _ => false) [("password", "pw")]
      (Or.inl (by decide)),
    missing_required_field_handling.2.1 (fun _ => false) 1
      [("email", "e@x.com"), ("password", "p"), ("full_name", "N")] "role" (by decide) (by decide),
    missing_required_field_handling.2.2.1 1 [] (by decide),
    missing_required_field_handling.2.2.2.1 "BK1001" 1 [] (by decide),
    missing_required_field_handling.2.2.2.2.1 [] [("document_type", "BOL")] 1 (Or.inl (by decide)),
    missing_required_field_handling.2.2.2.2.2.1 1 [("shipment_id", "3"), ("total_amount", "100")]
      "invoice_number" (by decide) (by decide),
    missing_required_field_handling.2.2.2.2.2.2 9 "BK1001" [("severity", "HIGH")] (by decide)⟩

/-- C10: with `ESCALATION_EMAILS` unset or empty, splitting the empty
string on commas yields a single empty entry, the comprehension filters it
out, and a HIGH or CRITICAL alert goes to exactly the base recipient
list. -/
theorem empty_escalation_adds_no_recipient (cfg : Config) (r : ExceptionRow × Shipment)
    (hesc : cfg.escalation_emails = none ∨ cfg.escalation_emails = some "")
    (hsev : r.1.severity = "HIGH" ∨ r.1.severity = "CRITICAL") :
    pySplit "" ',' = [""]
    ∧ (send_exception_alert cfg r).recipients = cfg.vhc_recipients := by
  have hempty : cfg.escalation_recipients = [] := by
    unfold Config.escalation_recipients
    rcases hesc with h | h <;> rw [h] <;> rfl
  refine ⟨rfl, ?_⟩
  unfold send_exception_alert
  rcases hsev with h | h <;> rw [h] <;>
    show cfg.vhc_recipients ++ cfg.escalation_recipients = cfg.vhc_recipients <;>
    rw [hempty, List.append_nil]

/-- Witness for C10: with the empty-escalation configuration the CRITICAL
sample exception is addressed to the two base recipients only. -/
theorem empty_escalation_adds_no_recipient_witness :
    (send_exception_alert emptyEscCfg (sampleException, sampleShipment)).recipients
      = emptyEscCfg.vhc_recipients :=
  (empty_escalation_adds_no_recipient emptyEscCfg (sampleException, sampleShipment)
    (Or.inr (by decide)) (Or.inr (by decide))).2

end ShipTrack
